import Mathlib

/-!
Shallow embedding of the terraform-provider-kowabunga provider core:
the field validators, the name-or-ID resolvers and the model converters,
together with proofs of the specified properties.

Conventions:
* Terraform framework configuration values are modelled by `GoTFValue`
  (null / unknown / known value); a validator returns the list of
  diagnostics it adds to `resp.Diagnostics` (empty list = accepted).
  The attribute path passed to `AddAttributeError` is the same for every
  diagnostic of one call and is omitted.
* Go strings are handled as `List Char`; the strings manipulated by the
  embedded code are ASCII, where character-wise and byte-wise processing
  agree.
* Fallible Go calls (`..., err := f(); if err != nil`) are modelled with
  `Option`.
-/

/-- A Terraform framework configuration value: null, unknown, or a known value
of the underlying type. -/
inductive GoTFValue (α : Type) where
  | null
  | unknown
  | value (a : α)
deriving DecidableEq

/-- One diagnostic added through `resp.Diagnostics.AddAttributeError`:
summary and detail strings (the attribute path is omitted, see the file
header). -/
structure Diag where
  summary : String
  detail : String
deriving DecidableEq

/-! ### Go standard-library helpers used by the validators -/

/-- Models `strings.Split(s, sep)` for a one-character separator (the only
separators used by this code are `","` and `"-"`): the list of maximal
groups between occurrences of `sep`; always nonempty. -/
def goSplitChar (sep : Char) : List Char → List (List Char)
  | [] => [[]]
  | c :: cs =>
    if c = sep then [] :: goSplitChar sep cs
    else
      match goSplitChar sep cs with
      | [] => [[c]]
      | g :: gs => (c :: g) :: gs

/-- Models `strconv.ParseUint(string(s), 10, 16)`: succeeds exactly on a
nonempty string of decimal digits whose value is at most 65535 (with an
explicit base of 10, Go admits no sign, no base prefix and no underscore;
Go detects overflow digit by digit, which is equivalent to the final bound
check used here). -/
def goParseUint16 (s : List Char) : Option Nat :=
  if s.isEmpty || !(s.all Char.isDigit) then none
  else
    let v := s.foldl (fun acc c => acc * 10 + (c.toNat - 48)) 0
    if v ≤ 65535 then some v else none

/-- Go's `<` on strings: byte-wise lexicographic order. On the all-ASCII
strings this development compares it coincides with the character-wise
order computed here. -/
def goStrLt : List Char → List Char → Bool
  | _, [] => false
  | [], _ :: _ => true
  | a :: as, b :: bs =>
    if a.toNat < b.toNat then true
    else if b.toNat < a.toNat then false
    else goStrLt as bs

/-! ### Port-ranges validator (internal/provider/datasource.go) -/

def ValidatorNetworkPortsErrInvalidPort : String := "Invalid port"

def ValidatorNetworkPortsErrInvalidRange : String := "Invalid range"

def ValidatorNetworkPortsErrTooManyEntries : String := "Too many entries in range"

def ValidatorNetworkPortsErrOutsideRange : String := "Port outside range (0-65535) for port"

def ValidatorNetworkPortsErrBogusRange : String := "Left hand side is superior than righ hand side"

/-- One iteration of the loop of
`stringNetworkPortRangesValidator.ValidateString` over a comma-separated
entry `port`: the diagnostic it adds, if any.  Mirrors the source order:
more than two `-`-separated parts, then `ParseUint` of the left part, then
(for a two-part range) `ParseUint` of the right part, then the Go string
comparison `portRanges[0] > portRanges[1]`. -/
def validatePortEntry (port : List Char) : List Diag :=
  match goSplitChar '-' port with
  | [p0] =>
    match goParseUint16 p0 with
    | none =>
      [⟨ValidatorNetworkPortsErrInvalidPort,
        ValidatorNetworkPortsErrOutsideRange ++ ": " ++ String.mk p0⟩]
    | some _ => []
  | [p0, p1] =>
    match goParseUint16 p0 with
    | none =>
      [⟨ValidatorNetworkPortsErrInvalidPort,
        ValidatorNetworkPortsErrOutsideRange ++ ": " ++ String.mk p0⟩]
    | some _ =>
      match goParseUint16 p1 with
      | none =>
        [⟨ValidatorNetworkPortsErrInvalidPort,
          ValidatorNetworkPortsErrOutsideRange ++ ": " ++ String.mk p1⟩]
      | some _ =>
        if goStrLt p1 p0 then
          [⟨ValidatorNetworkPortsErrInvalidRange,
            ValidatorNetworkPortsErrBogusRange ++ ": " ++ String.mk port ++ " "⟩]
        else []
  | _ =>
    [⟨ValidatorNetworkPortsErrTooManyEntries,
      ValidatorNetworkPortsErrTooManyEntries ++ ": " ++ String.mk port⟩]

/-- The `for _, port := range portList` loop: returns at the first entry
that adds a diagnostic. -/
def validatePortList : List (List Char) → List Diag
  | [] => []
  | port :: rest =>
    match validatePortEntry port with
    | [] => validatePortList rest
    | ds => ds

/-- `stringNetworkPortRangesValidator.ValidateString`: null or unknown
values pass; otherwise the value is split on `","` and each entry is
checked in turn. -/
def stringNetworkPortRangesValidator.ValidateString (req : GoTFValue String) : List Diag :=
  match req with
  | .unknown => []
  | .null => []
  | .value s => validatePortList (goSplitChar ',' s.data)

/-- The acceptance condition claim C2 states for one comma-separated entry:
at most two `-`-separated parts, every part parses as a uint16, and for a
two-part range the left part does not lexicographically exceed the right
part. -/
def portEntryOkClaim (entry : List Char) : Prop :=
  let parts := goSplitChar '-' entry
  parts.length ≤ 2 ∧ (∀ p ∈ parts, (goParseUint16 p).isSome = true) ∧
    ∀ a b, parts = [a, b] → goStrLt b a = false

/-! ### Duration validator (internal/provider/kowabunga_agent_resource.go) -/

def ValidatorDurationDescription : String :=
  "Duration must be a number, with or without the following suffix `s`, `m`, `h`, `d`"

def ValidatorDurationErrUnsupported : String := "Unsupported duration"

/-- The bracket expression of the source regex `[0-9]+['s'-'m'-'h'-'d']`.
Under RE2 rules it contains the literal characters s, m, h, d and the
apostrophe: each inner `'-'` is parsed as a one-character range from
apostrophe to apostrophe, so the hyphen itself is a range operator, not a
member. -/
def durationSuffixClass (c : Char) : Bool :=
  c = 's' || c = 'm' || c = 'h' || c = 'd' || c = '\''

/-- Models `regexp.MatchString("[0-9]+['s'-'m'-'h'-'d']", s)`.
`MatchString` is an unanchored containment test, so the constant pattern
matches exactly when some digit of `s` is immediately followed by a
character of `durationSuffixClass` (one digit already satisfies `[0-9]+`).
The pattern is a valid constant, so the accompanying `err` result is
always nil. -/
def durationRegexMatch : List Char → Bool
  | c1 :: c2 :: rest =>
    (c1.isDigit && durationSuffixClass c2) || durationRegexMatch (c2 :: rest)
  | _ => false

/-- `stringDurationValidator.ValidateString`: null or unknown values pass;
otherwise a diagnostic is added when the regex does not match. -/
def stringDurationValidator.ValidateString (req : GoTFValue String) : List Diag :=
  match req with
  | .unknown => []
  | .null => []
  | .value s =>
    if durationRegexMatch s.data then []
    else [⟨ValidatorDurationErrUnsupported,
           ValidatorDurationDescription ++ ": " ++ s⟩]

/-- The suffix set named by claim C5: s, -, m, h, d (the claim's reading of
the character class). Follows the claim's words, for comparison with the
code. -/
def durationClaimSuffix (c : Char) : Bool :=
  c = 's' || c = '-' || c = 'm' || c = 'h' || c = 'd'

/-- The acceptance condition claim C5 states: the whole string is one or
more digits followed by exactly one suffix character drawn from
{s, -, m, h, d}. Follows the claim's words, for comparison with the code. -/
def durationClaimAccepts (s : List Char) : Bool :=
  !s.dropLast.isEmpty && s.dropLast.all Char.isDigit &&
    (match s.getLast? with
     | some c => durationClaimSuffix c
     | none => false)

/-! ### Allow-list validators (datasource.go, validator_network_protocol.go,
validator_user_role.go, validator_ipsec_algorithm.go, agent validator) -/

/-- Models `unicode`-aware `strings.ToLower` on the ASCII strings handled
here (the allow-lists compared against are all ASCII). -/
def goToLower (s : String) : String :=
  String.mk (s.data.map fun c =>
    if 'A' ≤ c && c ≤ 'Z' then Char.ofNat (c.toNat + 32) else c)

def ValidatorNetworkProtocolErrUnsupported : String := "Unsupported protocol"

def networkSupportedProtocols : List String := ["tcp", "udp"]

/-- `stringNetworkProtocolValidator.ValidateString`. -/
def stringNetworkProtocolValidator.ValidateString (req : GoTFValue String) : List Diag :=
  match req with
  | .unknown => []
  | .null => []
  | .value protocol =>
    if !(networkSupportedProtocols.contains (goToLower protocol)) then
      [⟨ValidatorNetworkProtocolErrUnsupported,
        ValidatorNetworkProtocolErrUnsupported ++ ": " ++ protocol⟩]
    else []

def ValidatorFirewallPolicyErrUnsupported : String := "Unsupported policy"

def firewallSupportedPolicy : List String := ["accept", "drop"]

/-- `stringFirewallPolicyValidator.ValidateString`. -/
def stringFirewallPolicyValidator.ValidateString (req : GoTFValue String) : List Diag :=
  match req with
  | .unknown => []
  | .null => []
  | .value protocol =>
    if !(firewallSupportedPolicy.contains protocol) then
      [⟨ValidatorFirewallPolicyErrUnsupported,
        ValidatorFirewallPolicyErrUnsupported ++ ": " ++ protocol⟩]
    else []

def ValidatorUserRoleErrUnsupported : String := "Unsupported user role"

def userSupportedRoles : List String := ["superAdmin", "projectAdmin", "user"]

/-- `stringUserRoleValidator.ValidateString`. -/
def stringUserRoleValidator.ValidateString (req : GoTFValue String) : List Diag :=
  match req with
  | .unknown => []
  | .null => []
  | .value role =>
    if !(userSupportedRoles.contains role) then
      [⟨ValidatorUserRoleErrUnsupported,
        ValidatorUserRoleErrUnsupported ++ ": " ++ role⟩]
    else []

def ValidatorAgentTypeDescription : String :=
  "Kowabunga remote agent type must be one of the following: "

def ValidatorEncryptionAlgorithmDescription : String :=
  "Encryption Algorithm only supports the following "

def ValidatorIntegrityAlgorithmDescription : String :=
  "Integrity Algorithm only supports the following : "

def ValidatorDHAlgorithmDescription : String :=
  "Diffie Hellman Algorithm only supports the following : "

def ValidatorAlgorithmErrUnsupported : String := "Unsupported algorithm"

def encryptionSupportedTypes : List String :=
  ["AES128", "AES256", "CAMELLIA128", "CAMELLIA256"]

def integritySupportedTypes : List String :=
  ["SHA1", "SHA256", "SHA384", "SHA512"]

def diffieHellmanSupportedTypes : List Int :=
  [2, 5, 14, 15, 16, 17, 18, 19, 20, 21, 22, 23, 24]

/-- `diffieHellmanAlgorithmTypeValidator.ValidateInt64`. -/
def diffieHellmanAlgorithmTypeValidator.ValidateInt64 (req : GoTFValue Int) : List Diag :=
  match req with
  | .unknown => []
  | .null => []
  | .value v =>
    if !(diffieHellmanSupportedTypes.contains v) then
      [⟨ValidatorAlgorithmErrUnsupported,
        ValidatorDHAlgorithmDescription ++ ": " ++ toString v⟩]
    else []

/-- `integrityAlgorithmTypeValidator.ValidateString` (its detail string uses
the validator's `Description`, which joins the integrity allow-list). -/
def integrityAlgorithmTypeValidator.ValidateString (req : GoTFValue String) : List Diag :=
  match req with
  | .unknown => []
  | .null => []
  | .value v =>
    if !(integritySupportedTypes.contains v) then
      [⟨ValidatorAlgorithmErrUnsupported,
        (ValidatorIntegrityAlgorithmDescription
          ++ String.intercalate ", " integritySupportedTypes) ++ ". Got : " ++ v⟩]
    else []

/-- `encryptionAlgorithmTypeValidator.ValidateString` (its `Description`
method concatenates `ValidatorAgentTypeDescription` — as in the source —
with the encryption allow-list). -/
def encryptionAlgorithmTypeValidator.ValidateString (req : GoTFValue String) : List Diag :=
  match req with
  | .unknown => []
  | .null => []
  | .value v =>
    if !(encryptionSupportedTypes.contains v) then
      [⟨ValidatorAlgorithmErrUnsupported,
        (ValidatorAgentTypeDescription
          ++ String.intercalate ", " encryptionSupportedTypes) ++ ". Got : " ++ v⟩]
    else []

/-! ### Email validator (src/unnamed/part_006) -/

def ValidatorUserEmailErrUnsupported : String := "Unsupported user email"

def ValidatorUserEmailErrMalformed : String := "Malformed user email"

/-- `stringUserEmailValidator.ValidateString`. The external AfterShip
email-verifier is not part of this repository; its call is abstracted by
the parameter `verify`, where `Except.error ()` models a non-nil `err`
from `verifier.Verify` and `Except.ok b` models a verification result
whose syntax-validity flag is `b`. -/
def stringUserEmailValidator.ValidateString (verify : String → Except Unit Bool)
    (req : GoTFValue String) : List Diag :=
  match req with
  | .unknown => []
  | .null => []
  | .value s =>
    match verify s with
    | .error _ =>
      [⟨ValidatorUserEmailErrUnsupported,
        ValidatorUserEmailErrUnsupported ++ ": " ++ s⟩]
    | .ok ok =>
      if !ok then
        [⟨ValidatorUserEmailErrMalformed,
          ValidatorUserEmailErrMalformed ++ ": " ++ s⟩]
      else []

/-! ### Name-or-ID resolvers (kowabunga_subnet_resource.go) -/

def ErrorUnknownRegion : String := "Unknown region"

def ErrorUnknownTemplate : String := "Unknown volume template"

/-- A region record as used by `getRegionID`: the dereferenced `Id` pointer
and the `Name` field. -/
structure Region where
  id : String
  name : String
deriving DecidableEq

/-- The slice of the API client used by `getRegionID`.  `readRegion s`
models `RegionAPI.ReadRegion(ctx, s).Execute()` (`none` = the call returned
an error); `listRegions` models `RegionAPI.ListRegions(ctx).Execute()`. -/
structure RegionAPI where
  readRegion : String → Option Region
  listRegions : Option (List String)

/-- A template record as used by `getTemplateID`. -/
structure Template where
  id : String
  name : String
deriving DecidableEq

/-- The slice of the API client used by `getTemplateID`. -/
structure TemplateAPI where
  readTemplate : String → Option Template
  listStoragePoolTemplates : String → Option (List String)

/-- One network call issued by a resolver, recorded in issue order. -/
inductive ApiCall where
  | readRegion (arg : String)
  | listRegions
  | readTemplate (arg : String)
  | listStoragePoolTemplates (poolId : String)
deriving DecidableEq

/-- The fallback loop of `getRegionID` over the enumerated region IDs:
reads each region in turn and returns the first whose read succeeds with a
`Name` equal to the target, together with the trace of `ReadRegion` calls
issued (a failed read of one enumerated region skips to the next). -/
def scanRegions (api : RegionAPI) (target : String) :
    List String → Option Region × List ApiCall
  | [] => (none, [])
  | rg :: rest =>
    match api.readRegion rg with
    | some r =>
      if r.name = target then (some r, [ApiCall.readRegion rg])
      else
        let (res, tr) := scanRegions api target rest
        (res, ApiCall.readRegion rg :: tr)
    | none =>
      let (res, tr) := scanRegions api target rest
      (res, ApiCall.readRegion rg :: tr)

/-- `getRegionID`: first a direct `ReadRegion` with the input as ID; on
failure, `ListRegions` followed by the name scan; `fmt.Errorf("%s",
ErrorUnknownRegion)` carries exactly that message.  Returns the Go result
pair (ID, optional error message) and the ordered call trace. -/
def getRegionID (api : RegionAPI) (id : String) :
    (String × Option String) × List ApiCall :=
  match api.readRegion id with
  | some region => ((region.id, none), [ApiCall.readRegion id])
  | none =>
    match api.listRegions with
    | some regions =>
      match scanRegions api id regions with
      | (some r, tr) =>
        ((r.id, none), ApiCall.readRegion id :: ApiCall.listRegions :: tr)
      | (none, tr) =>
        (("", some ErrorUnknownRegion),
         ApiCall.readRegion id :: ApiCall.listRegions :: tr)
    | none =>
      (("", some ErrorUnknownRegion),
       [ApiCall.readRegion id, ApiCall.listRegions])

/-- The fallback loop of `getTemplateID`, same shape as `scanRegions`. -/
def scanTemplates (api : TemplateAPI) (target : String) :
    List String → Option Template × List ApiCall
  | [] => (none, [])
  | tn :: rest =>
    match api.readTemplate tn with
    | some t =>
      if t.name = target then (some t, [ApiCall.readTemplate tn])
      else
        let (res, tr) := scanTemplates api target rest
        (res, ApiCall.readTemplate tn :: tr)
    | none =>
      let (res, tr) := scanTemplates api target rest
      (res, ApiCall.readTemplate tn :: tr)

/-- `getTemplateID`: direct `ReadTemplate`, then a scan over the owning
pool's templates. -/
def getTemplateID (api : TemplateAPI) (id poolId : String) :
    (String × Option String) × List ApiCall :=
  match api.readTemplate id with
  | some template => ((template.id, none), [ApiCall.readTemplate id])
  | none =>
    match api.listStoragePoolTemplates poolId with
    | some templates =>
      match scanTemplates api id templates with
      | (some t, tr) =>
        ((t.id, none),
         ApiCall.readTemplate id :: ApiCall.listStoragePoolTemplates poolId :: tr)
      | (none, tr) =>
        (("", some ErrorUnknownTemplate),
         ApiCall.readTemplate id :: ApiCall.listStoragePoolTemplates poolId :: tr)
    | none =>
      (("", some ErrorUnknownTemplate),
       [ApiCall.readTemplate id, ApiCall.listStoragePoolTemplates poolId])

/-! ### Terraform framework value accessors -/

/-- `types.String.ValueString()`: the known value, `""` for null or
unknown. -/
def GoTFValue.valueString : GoTFValue String → String
  | .value s => s
  | .null => ""
  | .unknown => ""

/-- `types.String.ValueStringPointer()`: nil for a null value, otherwise a
pointer to the held string (`""` for unknown). -/
def GoTFValue.valueStringPointer : GoTFValue String → Option String
  | .null => none
  | .unknown => some ""
  | .value s => some s

/-- `types.Int64.ValueInt64()`: the known value, 0 for null or unknown. -/
def GoTFValue.valueInt64 : GoTFValue Int → Int
  | .value n => n
  | .null => 0
  | .unknown => 0

/-! ### Volume model converters (kowabunga_volume_resource.go) -/

def HelperGbToBytes : Int := 1073741824

/-- Two's-complement wrap-around of Go int64 arithmetic
(2^63 = 9223372036854775808, 2^64 = 18446744073709551616). -/
def wrapInt64 (x : Int) : Int :=
  (x + 9223372036854775808) % 18446744073709551616 - 9223372036854775808

/-- `sdk.Volume`, restricted to the fields the converters touch
(`Description` is a `*string`, `Size` an `int64` byte count). -/
structure Volume where
  name : String
  description : Option String
  type' : String
  size : Int
deriving DecidableEq

/-- The Terraform model fields touched by the volume converters. -/
structure VolumeResourceModel where
  name : GoTFValue String
  desc : GoTFValue String
  type' : GoTFValue String
  size : GoTFValue Int
deriving DecidableEq

/-- `volumeResourceToModel`: Terraform model → `sdk.Volume`.  The product
`d.Size.ValueInt64() * HelperGbToBytes` is Go int64 arithmetic and wraps. -/
def volumeResourceToModel (d : VolumeResourceModel) : Volume :=
  { name := d.name.valueString
    description := d.desc.valueStringPointer
    type' := d.type'.valueString
    size := wrapInt64 (d.size.valueInt64 * HelperGbToBytes) }

/-- `volumeModelToResource`: `sdk.Volume` → Terraform model (the Go
function assigns every field of `d`; the embedding returns the assigned
model).  `r.Size / HelperGbToBytes` is Go int64 division: truncation toward
zero, which cannot wrap when dividing by 2^30. -/
def volumeModelToResource (r : Volume) : VolumeResourceModel :=
  { name := .value r.name
    desc := match r.description with
            | some d0 => .value d0
            | none => .value ""
    type' := .value r.type'
    size := .value (Int.tdiv r.size HelperGbToBytes) }

/-! ### Kylo and Kawaii converters (src/unnamed/part_007, part_003) -/

def KyloDefaultValueAccessType : String := "RW"

def KawaiiDefaultValueEgressPolicy : String := "accept"

/-- `sdk.Kylo`, restricted to the fields the converter assigns
(`Protocols` holds int32 values). -/
structure Kylo where
  name : String
  description : Option String
  access : Option String
  protocols : List Int
  endpoint : Option String
deriving DecidableEq

/-- The Terraform model fields assigned by `kyloModelToResource`
(`protocols` is a known list of known int64 elements, as built by
`types.ListValue`). -/
structure KyloResourceModel where
  name : GoTFValue String
  desc : GoTFValue String
  access : GoTFValue String
  protocols : GoTFValue (List Int)
  endpoint : GoTFValue String
deriving DecidableEq

/-- `kyloModelToResource`: `sdk.Kylo` → Terraform model.  (The `r == nil`
guard returns without assigning; the embedding takes the record directly.
The int32 → int64 widening of each protocol is exact.) -/
def kyloModelToResource (r : Kylo) : KyloResourceModel :=
  { name := .value r.name
    desc := match r.description with
            | some d0 => .value d0
            | none => .value ""
    access := match r.access with
              | some a => .value a
              | none => .value KyloDefaultValueAccessType
    protocols := .value r.protocols
    endpoint := match r.endpoint with
                | some e => .value e
                | none => .value "" }

/-- The egress-policy assignment of `kawaiiModelToResource` (the fragment
the claim is about, from a much larger converter): a nil
`r.Firewall.EgressPolicy` is replaced by the documented default, a present
one is copied through. -/
def kawaiiModelToResourceEgressPolicy (egressPolicy : Option String) : GoTFValue String :=
  match egressPolicy with
  | some p => .value p
  | none => .value KawaiiDefaultValueEgressPolicy

/-! ### Go net.ParseIP / net.ParseCIDR, as used by the network-address
validator (src/unnamed/part_009).  `net.ParseIP` and `net.ParseCIDR`
delegate to `net/netip`'s address parser; the validator only consults
success or failure, so the embedding tracks every accept/reject decision of
the parser but not the assembled address bytes (pure data movement). -/

/-- netip `parseIPv4Fields`: scans decimal octets separated by dots.
State: `val` is the current field value, `pos` the number of closed fields,
`digLen` the digit count of the current field.  A second digit on a current
value of zero (a leading zero), a field value above 255, a dot at the
start, at the end or right after a dot (`digLen = 0`), a fifth field, a
character that is neither digit nor dot, or fewer than four fields, all
fail. -/
def parseIPv4FieldsAux : List Char → Nat → Nat → Nat → List Nat → Option (List Nat)
  | [], val, pos, _digLen, fields =>
    if pos < 3 then none else some (fields ++ [val])
  | c :: rest, val, pos, digLen, fields =>
    if '0' ≤ c && c ≤ '9' then
      if digLen = 1 && val = 0 then none
      else
        let val' := val * 10 + (c.toNat - 48)
        if 255 < val' then none
        else parseIPv4FieldsAux rest val' pos (digLen + 1) fields
    else if c = '.' then
      if digLen = 0 || rest.isEmpty then none
      else if pos = 3 then none
      else parseIPv4FieldsAux rest 0 (pos + 1) 0 (fields ++ [val])
    else none

/-- netip `parseIPv4`: the four octets of a dotted-quad address. -/
def parseIPv4Go (s : List Char) : Option (List Nat) :=
  parseIPv4FieldsAux s 0 0 0 []

/-- The value of a hexadecimal digit character, as recognised by the
hex-group loop of netip `parseIPv6`. -/
def goHexVal (c : Char) : Option Nat :=
  if '0' ≤ c && c ≤ '9' then some (c.toNat - 48)
  else if 'a' ≤ c && c ≤ 'f' then some (c.toNat - 87)
  else if 'A' ≤ c && c ≤ 'F' then some (c.toNat - 55)
  else none

/-- The hex-group loop of netip `parseIPv6`: consumes leading hex digits,
accumulating the group value; an accumulated value above 0xFFFF is the
parser's overflow error (`none`).  Returns (value, digits consumed,
characters left), leaving non-hex characters unconsumed. -/
def parseIPv6Group : List Char → Nat → Nat → Option (Nat × Nat × List Char)
  | [], acc, off => some (acc, off, [])
  | c :: rest, acc, off =>
    match goHexVal c with
    | some d =>
      let acc' := acc * 16 + d
      if 65535 < acc' then none
      else parseIPv6Group rest acc' (off + 1)
    | none => some (acc, off, c :: rest)

/-- The main loop of netip `parseIPv6` (`for i < 16`), with the zone
already split off.  `i` counts address bytes filled, `ellipsis` the
position of a `::` if one was seen.  Each iteration parses a hex group
(empty group fails), then dispatches: a following `.` starts a trailing
embedded IPv4 (allowed only with an earlier `::` or at `i = 12`, and only
if four bytes still fit, consuming the whole remainder through
`parseIPv4Fields`); end of input breaks; otherwise a `:` must follow with
more characters, where a second `:` records the single allowed ellipsis
(and may end the input).  Returns the post-loop state (remaining
characters, `i`, ellipsis) or `none` on error.  The loop body runs at most
eight times (`i` grows by at least 2 while `i < 16`), so the structural
`fuel` of 8 supplied by `parseIPv6Go` never runs out. -/
def parseIPv6Loop (fuel : Nat) (s : List Char) (i : Nat) (ellipsis : Option Nat) :
    Option (List Char × Nat × Option Nat) :=
  if 16 ≤ i then some (s, i, ellipsis)
  else
    match fuel with
    | 0 => none
    | fuel' + 1 =>
      match parseIPv6Group s 0 0 with
      | none => none
      | some (_acc, off, rest) =>
        if off = 0 then none
        else
          match rest with
          | '.' :: _ =>
            if ellipsis.isNone && i ≠ 12 then none
            else if 16 < i + 4 then none
            else
              match parseIPv4FieldsAux s 0 0 0 [] with
              | some _ => some ([], i + 4, ellipsis)
              | none => none
          | [] => some ([], i + 2, ellipsis)
          | ':' :: restc =>
            match restc with
            | [] => none
            | ':' :: restcc =>
              if ellipsis.isSome then none
              else
                match restcc with
                | [] => some ([], i + 2, some (i + 2))
                | _ => parseIPv6Loop fuel' restcc (i + 2) (some (i + 2))
            | _ => parseIPv6Loop fuel' restc (i + 2) ellipsis
          | _ => none

/-- The post-loop checks of netip `parseIPv6`, reduced to success and the
parsed zone: any unconsumed characters fail, too few bytes fail unless an
ellipsis can expand, and a full sixteen bytes together with an ellipsis
fail (the `::` must stand for at least one zero group). -/
def parseIPv6Post (r : Option (List Char × Nat × Option Nat)) (zone : String) :
    Option String :=
  match r with
  | none => none
  | some (s', i, ellipsis) =>
    if !s'.isEmpty then none
    else if i < 16 then
      if ellipsis.isNone then none else some zone
    else if ellipsis.isSome then none
    else some zone

/-- The body of netip `parseIPv6` after the zone has been split off: a
leading `::` may start (or be) the address, then the main loop runs and its
outcome goes through the post-loop checks. -/
def parseIPv6Core (s : List Char) (zone : String) : Option String :=
  match s with
  | ':' :: ':' :: s' =>
    if s'.isEmpty then some zone
    else parseIPv6Post (parseIPv6Loop 8 s' 0 (some 0)) zone
  | _ => parseIPv6Post (parseIPv6Loop 8 s 0 none) zone

/-- netip `parseIPv6` entry point: splits the zone off at the first `%`
(an empty zone fails) and runs the core parser. -/
def parseIPv6Go (input : List Char) : Option String :=
  let s := input.takeWhile (· ≠ '%')
  let zoneRest := input.dropWhile (· ≠ '%')
  match zoneRest with
  | _ :: [] => none
  | _ :: zone => parseIPv6Core s (String.mk zone)
  | [] => parseIPv6Core s ""

/-- The outcome of netip `ParseAddr`: an IPv4 address (bit length 32) or an
IPv6 address with its zone (bit length 128). -/
inductive GoAddr where
  | v4
  | v6 (zone : String)
deriving DecidableEq

/-- `Addr.BitLen()`. -/
def GoAddr.bitLen : GoAddr → Nat
  | .v4 => 32
  | .v6 _ => 128

/-- netip `ParseAddr`: dispatches on the first `.`, `:` or `%` of the
string (`.` → parseIPv4, `:` → parseIPv6, `%` → error, none present →
error). -/
def netipParseAddr (s : List Char) : Option GoAddr :=
  match s.find? (fun c => c = '.' || c = ':' || c = '%') with
  | some c =>
    if c = '.' then (parseIPv4Go s).map (fun _ => GoAddr.v4)
    else if c = ':' then (parseIPv6Go s).map GoAddr.v6
    else none
  | none => none

/-- `net.ParseIP`: netip `ParseAddr`, additionally rejecting any address
carrying a zone. -/
def netParseIP (s : List Char) : Option GoAddr :=
  match netipParseAddr s with
  | some GoAddr.v4 => some GoAddr.v4
  | some (GoAddr.v6 zone) => if zone = "" then some (GoAddr.v6 zone) else none
  | none => none

/-- net `dtoi`: parses a leading decimal number; not ok when there is no
digit or the value reaches the cutoff 0xFFFFFF.  Returns (value, characters
consumed, ok). -/
def goDtoi : List Char → Nat → Nat → Nat × Nat × Bool
  | [], n, i => if i = 0 then (0, 0, false) else (n, i, true)
  | c :: rest, n, i =>
    if '0' ≤ c && c ≤ '9' then
      let n' := n * 10 + (c.toNat - 48)
      if 16777215 ≤ n' then (16777215, i, false)
      else goDtoi rest n' (i + 1)
    else if i = 0 then (0, 0, false) else (n, i, true)

/-- `net.ParseCIDR`, reduced to success (all the validator consults): the
string splits at its first `/`; the part before must parse through netip
`ParseAddr` with no zone; the part after must be consumed entirely by
`dtoi` with a value at most the address bit length. -/
def netParseCIDROk (s : List Char) : Bool :=
  let addr := s.takeWhile (· ≠ '/')
  let rest := s.dropWhile (· ≠ '/')
  match rest with
  | [] => false
  | _ :: mask =>
    match netParseIP addr with
    | none => false
    | some k =>
      let (n, i, ok) := goDtoi mask 0 0
      ok && i == mask.length && n ≤ k.bitLen

/-! ### Network-address validator (src/unnamed/part_009) -/

def ValidatorNetworkAddressErrInvalid : String := "Invalid IPv4 address or CIDR"

/-- `stringNetworkAddressValidator.ValidateString`: null or unknown values
pass; otherwise the value is accepted when `net.ParseIP` returns non-nil or
`net.ParseCIDR` succeeds. -/
def stringNetworkAddressValidator.ValidateString (req : GoTFValue String) : List Diag :=
  match req with
  | .unknown => []
  | .null => []
  | .value ip =>
    let valid_ip := (netParseIP ip.data).isSome
    let valid_cidr := netParseCIDROk ip.data
    if !valid_ip && !valid_cidr then
      [⟨ValidatorNetworkAddressErrInvalid,
        ValidatorNetworkAddressErrInvalid ++ ": " ++ ip⟩]
    else []

/-- The acceptance condition claim C9 states: the value parses as a valid
IPv4 address (dotted quad) or as a valid CIDR block.  Follows the claim's
words, for comparison with the code. -/
def networkAddressClaimAccepts (s : List Char) : Bool :=
  (parseIPv4Go s).isSome || netParseCIDROk s

/-! ### Concrete API environments used to witness the resolver theorems -/

/-- A two-region environment: regions `rg-1` (named `alpha`) and `rg-2`
(named `beta`); every other direct read fails. -/
def demoRegionAPI : RegionAPI where
  readRegion := fun s =>
    if s = "rg-1" then some ⟨"rg-1", "alpha"⟩
    else if s = "rg-2" then some ⟨"rg-2", "beta"⟩
    else none
  listRegions := some ["rg-1", "rg-2"]

/-- A template environment where every read fails and the pool enumeration
itself fails. -/
def demoTemplateAPI : TemplateAPI where
  readTemplate := fun _ => none
  listStoragePoolTemplates := fun _ => none

/-! ### Lemmas about the port-ranges validator -/

theorem goSplitChar_ne_nil (sep : Char) (l : List Char) : goSplitChar sep l ≠ [] := by
  cases l with
  | nil => simp [goSplitChar]
  | cons c cs =>
    simp only [goSplitChar]
    split
    · simp
    · split
      · simp
      · simp

theorem validatePortList_eq_nil (l : List (List Char)) :
    validatePortList l = [] ↔ ∀ e ∈ l, validatePortEntry e = [] := by
  induction l with
  | nil => simp [validatePortList]
  | cons e rest ih =>
    simp only [validatePortList]
    cases h : validatePortEntry e with
    | nil => simp [h, ih]
    | cons d ds =>
      simp only [List.mem_cons]
      constructor
      · intro hc
        exact absurd hc (by simp)
      · intro hall
        have := hall e (Or.inl rfl)
        rw [h] at this
        exact absurd this (by simp)

theorem validatePortEntry_eq_nil (e : List Char) :
    validatePortEntry e = [] ↔ portEntryOkClaim e := by
  unfold validatePortEntry portEntryOkClaim
  rcases h : goSplitChar '-' e with _ | ⟨p0, _ | ⟨p1, _ | ⟨p2, rest⟩⟩⟩
  · exact absurd h (goSplitChar_ne_nil _ _)
  · simp only [h]
    cases hp : goParseUint16 p0 with
    | none => simp [hp]
    | some v => simp [hp]
  · simp only [h]
    cases hp0 : goParseUint16 p0 with
    | none => simp [hp0]
    | some v0 =>
      cases hp1 : goParseUint16 p1 with
      | none => simp [hp0, hp1]
      | some v1 =>
        cases hlt : goStrLt p1 p0 with
        | false => simp [hp0, hp1, hlt]
        | true => simp [hp0, hp1, hlt]
  · simp [h]

/-! ### Claims C1 and C2 -/

/-- C1: the port-ranges validator accepts "80", "22,80,443" and "3000-3005"
and rejects "1-2-3" and "70000", as claimed; but it does NOT reject
"100-50": the range check compares the endpoint strings with Go's
lexicographic string order, under which "100" < "50", so no diagnostic is
added for the numerically descending range (the claim and the validator's
own error text about the left-hand side being superior both call for a
rejection). -/
theorem C1_portRanges_vectors_code_behaviour :
    stringNetworkPortRangesValidator.ValidateString (GoTFValue.value "80") = [] ∧
    stringNetworkPortRangesValidator.ValidateString (GoTFValue.value "22,80,443") = [] ∧
    stringNetworkPortRangesValidator.ValidateString (GoTFValue.value "3000-3005") = [] ∧
    stringNetworkPortRangesValidator.ValidateString (GoTFValue.value "1-2-3") ≠ [] ∧
    stringNetworkPortRangesValidator.ValidateString (GoTFValue.value "70000") ≠ [] ∧
    stringNetworkPortRangesValidator.ValidateString (GoTFValue.value "100-50") = [] := by
  decide

/-- C2: for every known, non-null input string, the port-ranges validator
accepts (adds no diagnostic) exactly when every comma-separated entry has
at most two `-`-separated parts, every part parses as a uint16
(0 to 65535), and for each two-part entry the left part does not exceed the
right part in lexicographic string order. -/
theorem C2_portRanges_accept_iff (s : String) :
    stringNetworkPortRangesValidator.ValidateString (GoTFValue.value s) = [] ↔
      ∀ e ∈ goSplitChar ',' s.data, portEntryOkClaim e := by
  unfold stringNetworkPortRangesValidator.ValidateString
  rw [validatePortList_eq_nil]
  constructor
  · intro h e he
    exact (validatePortEntry_eq_nil e).mp (h e he)
  · intro h e he
    exact (validatePortEntry_eq_nil e).mpr (h e he)

/-! ### Lemmas about the duration regex -/

theorem durationRegexMatch_iff (l : List Char) :
    durationRegexMatch l = true ↔
      ∃ l₁ c₁ c₂ l₂, l = l₁ ++ c₁ :: c₂ :: l₂ ∧ c₁.isDigit = true ∧
        durationSuffixClass c₂ = true := by
  induction l with
  | nil =>
    constructor
    · intro h
      simp [durationRegexMatch] at h
    · rintro ⟨l₁, c₁, c₂, l₂, h, -, -⟩
      have hl := congrArg List.length h
      simp at hl
      omega
  | cons c cs ih =>
    cases cs with
    | nil =>
      constructor
      · intro h
        simp [durationRegexMatch] at h
      · rintro ⟨l₁, c₁, c₂, l₂, h, -, -⟩
        have hl := congrArg List.length h
        simp at hl
        omega
    | cons c2 rest =>
      constructor
      · intro h
        rcases Bool.or_eq_true_iff.mp h with hhead | htail
        · obtain ⟨h1, h2⟩ := Bool.and_eq_true_iff.mp hhead
          exact ⟨[], c, c2, rest, rfl, h1, h2⟩
        · obtain ⟨l₁, c₁, c₂, l₂, heq, h1, h2⟩ := ih.mp htail
          exact ⟨c :: l₁, c₁, c₂, l₂, by rw [heq]; rfl, h1, h2⟩
      · rintro ⟨l₁, c₁, c₂, l₂, heq, h1, h2⟩
        cases l₁ with
        | nil =>
          simp only [List.nil_append, List.cons.injEq] at heq
          obtain ⟨rfl, rfl, -⟩ := heq
          show (c.isDigit && durationSuffixClass c2 || _) = true
          simp [h1, h2]
        | cons a l₁' =>
          simp only [List.cons_append, List.cons.injEq] at heq
          obtain ⟨-, heq'⟩ := heq
          show (_ || durationRegexMatch (c2 :: rest)) = true
          have : durationRegexMatch (c2 :: rest) = true :=
            ih.mpr ⟨l₁', c₁, c₂, l₂, heq', h1, h2⟩
          simp [this]

/-! ### Claim C5 -/

/-- C5 counterexample: the claim's predicate (digits followed by exactly
one suffix character from {s, -, m, h, d}) holds for "1-", yet the
validator adds a diagnostic for it: the hyphens of the class
`['s'-'m'-'h'-'d']` are range operators, so `-` is not an accepted suffix.
Conversely, the claim rejects "12s3" (the suffix is not final), yet the
validator accepts it: `MatchString` is an unanchored containment test. -/
theorem C5_duration_counterexample :
    (durationClaimAccepts "1-".data = true ∧
     stringDurationValidator.ValidateString (GoTFValue.value "1-") ≠ []) ∧
    (durationClaimAccepts "12s3".data = false ∧
     stringDurationValidator.ValidateString (GoTFValue.value "12s3") = []) := by
  decide

/-- C5 amended: for every known, non-null input string, the duration
validator accepts exactly when somewhere in the string a digit is
immediately followed by a character from {s, m, h, d, apostrophe} — the RE2
reading of the class `['s'-'m'-'h'-'d']` — with the match unanchored, so
preceding and trailing characters are unrestricted. -/
theorem C5_duration_amended (s : String) :
    stringDurationValidator.ValidateString (GoTFValue.value s) = [] ↔
      ∃ l₁ c₁ c₂ l₂, s.data = l₁ ++ c₁ :: c₂ :: l₂ ∧ c₁.isDigit = true ∧
        durationSuffixClass c₂ = true := by
  rw [← durationRegexMatch_iff]
  show (if durationRegexMatch s.data then ([] : List Diag)
        else [⟨ValidatorDurationErrUnsupported,
               ValidatorDurationDescription ++ ": " ++ s⟩]) = [] ↔ _
  cases h : durationRegexMatch s.data <;> simp [h]

/-! ### Lemmas about the resolvers -/

theorem scanRegions_first_match (api : RegionAPI) (id : String)
    (pre : List String) (rg : String) (post : List String) (r : Region)
    (hpre : ∀ p ∈ pre, ∀ q, api.readRegion p = some q → q.name ≠ id)
    (hrg : api.readRegion rg = some r) (hname : r.name = id) :
    scanRegions api id (pre ++ rg :: post) =
      (some r, pre.map ApiCall.readRegion ++ [ApiCall.readRegion rg]) := by
  induction pre with
  | nil => simp [scanRegions, hrg, hname]
  | cons p pre' ih =>
    have hrec := ih (fun p' hp' q hq => hpre p' (List.mem_cons_of_mem p hp') q hq)
    simp only [List.cons_append, scanRegions]
    cases hq : api.readRegion p with
    | none => simp [hrec]
    | some q =>
      have hne : q.name ≠ id := hpre p (List.mem_cons_self p pre') q hq
      simp [hne, hrec]

theorem scanRegions_no_match (api : RegionAPI) (id : String) (l : List String)
    (h : ∀ rg ∈ l, ∀ r, api.readRegion rg = some r → r.name ≠ id) :
    (scanRegions api id l).1 = none := by
  induction l with
  | nil => simp [scanRegions]
  | cons rg rest ih =>
    have hrec := ih (fun p hp q hq => h p (List.mem_cons_of_mem rg hp) q hq)
    simp only [scanRegions]
    cases hq : api.readRegion rg with
    | none => simpa using hrec
    | some q =>
      have hne : q.name ≠ id := h rg (List.mem_cons_self rg rest) q hq
      simpa [hne] using hrec

theorem scanTemplates_no_match (api : TemplateAPI) (id : String) (l : List String)
    (h : ∀ tn ∈ l, ∀ t, api.readTemplate tn = some t → t.name ≠ id) :
    (scanTemplates api id l).1 = none := by
  induction l with
  | nil => simp [scanTemplates]
  | cons tn rest ih =>
    have hrec := ih (fun p hp q hq => h p (List.mem_cons_of_mem tn hp) q hq)
    simp only [scanTemplates]
    cases hq : api.readTemplate tn with
    | none => simpa using hrec
    | some q =>
      have hne : q.name ≠ id := h tn (List.mem_cons_self tn rest) q hq
      simpa [hne] using hrec

/-! ### Claims C3 and C4 -/

/-- C3: the resolver first attempts the direct read; when it succeeds the
entity's ID is returned and the trace shows no enumeration.  Only when the
direct read fails does it call the enumeration, read each listed entity in
order, and return the ID of the first whose name equals the input — the
trace shows the scan stopping at that first match (nothing after it is
read). -/
theorem C3_resolver_id_first_then_name_scan (api : RegionAPI) (id : String) :
    (∀ r, api.readRegion id = some r →
       getRegionID api id = ((r.id, none), [ApiCall.readRegion id])) ∧
    (api.readRegion id = none →
       ∀ pre rg post r,
         api.listRegions = some (pre ++ rg :: post) →
         (∀ p ∈ pre, ∀ q, api.readRegion p = some q → q.name ≠ id) →
         api.readRegion rg = some r → r.name = id →
         getRegionID api id =
           ((r.id, none),
            ApiCall.readRegion id :: ApiCall.listRegions ::
              (pre.map ApiCall.readRegion ++ [ApiCall.readRegion rg]))) := by
  constructor
  · intro r hr
    simp [getRegionID, hr]
  · intro hnone pre rg post r hlist hpre hrg hname
    simp only [getRegionID, hnone, hlist]
    rw [scanRegions_first_match api id pre rg post r hpre hrg hname]

/-- Witness for C3 on the concrete two-region environment: a direct ID hit
("rg-1") resolves with a single read, and a name lookup ("beta", the name
of the second region) resolves after the failed direct read, the list call,
and reads of exactly the first two regions. -/
theorem C3_resolver_witness :
    getRegionID demoRegionAPI "rg-1" =
      (("rg-1", none), [ApiCall.readRegion "rg-1"]) ∧
    getRegionID demoRegionAPI "beta" =
      (("rg-2", none),
       [ApiCall.readRegion "beta", ApiCall.listRegions,
        ApiCall.readRegion "rg-1", ApiCall.readRegion "rg-2"]) := by
  constructor
  · exact (C3_resolver_id_first_then_name_scan demoRegionAPI "rg-1").1
      ⟨"rg-1", "alpha"⟩ (by decide)
  · have h := (C3_resolver_id_first_then_name_scan demoRegionAPI "beta").2
      (by decide) ["rg-1"] "rg-2" [] ⟨"rg-2", "beta"⟩ (by decide)
      (by
        intro p hp q hq
        simp only [List.mem_singleton] at hp
        subst hp
        rw [show demoRegionAPI.readRegion "rg-1" = some ⟨"rg-1", "alpha"⟩ from by decide] at hq
        injection hq with h'
        subst h'
        decide)
      (by decide) rfl
    simpa using h

/-- C4: when the direct read fails and no enumerated entity's name equals
the input — including when the enumeration call itself fails — the
resolver returns the empty ID together with exactly the typed
"unknown <entity kind>" error, for the region resolver and the
pool-scoped template resolver alike. -/
theorem C4_resolver_unknown_error (api : RegionAPI) (tapi : TemplateAPI)
    (id tid poolId : String) :
    (api.readRegion id = none →
     (∀ l, api.listRegions = some l →
        ∀ rg ∈ l, ∀ r, api.readRegion rg = some r → r.name ≠ id) →
     (getRegionID api id).1 = ("", some ErrorUnknownRegion)) ∧
    (tapi.readTemplate tid = none →
     (∀ l, tapi.listStoragePoolTemplates poolId = some l →
        ∀ tn ∈ l, ∀ t, tapi.readTemplate tn = some t → t.name ≠ tid) →
     (getTemplateID tapi tid poolId).1 = ("", some ErrorUnknownTemplate)) := by
  constructor
  · intro hnone hnomatch
    simp only [getRegionID, hnone]
    cases hl : api.listRegions with
    | none => rfl
    | some l =>
      have hscan := scanRegions_no_match api id l (hnomatch l hl)
      rcases hs : scanRegions api id l with ⟨res, tr⟩
      rw [hs] at hscan
      simp at hscan
      subst hscan
      simp [hs]
  · intro hnone hnomatch
    simp only [getTemplateID, hnone]
    cases hl : tapi.listStoragePoolTemplates poolId with
    | none => rfl
    | some l =>
      have hscan := scanTemplates_no_match tapi tid l (hnomatch l hl)
      rcases hs : scanTemplates tapi tid l with ⟨res, tr⟩
      rw [hs] at hscan
      simp at hscan
      subst hscan
      simp [hs]

/-- Witness for C4: on the two-region environment the input "gamma"
matches no region ID and no region name, so the region resolver yields the
empty ID and the "Unknown region" error; on the template environment the
direct read fails and the pool enumeration itself fails, so the template
resolver yields the empty ID and the "Unknown volume template" error. -/
theorem C4_resolver_witness :
    (getRegionID demoRegionAPI "gamma").1 = ("", some ErrorUnknownRegion) ∧
    (getTemplateID demoTemplateAPI "tmpl" "pool-1").1 =
      ("", some ErrorUnknownTemplate) := by
  constructor
  · exact (C4_resolver_unknown_error demoRegionAPI demoTemplateAPI
      "gamma" "tmpl" "pool-1").1 (by decide)
      (by
        intro l hl rg hrg q hq
        rw [show demoRegionAPI.listRegions = some ["rg-1", "rg-2"] from rfl] at hl
        injection hl with hl'
        subst hl'
        rcases List.mem_cons.mp hrg with rfl | hrg'
        · rw [show demoRegionAPI.readRegion "rg-1" = some ⟨"rg-1", "alpha"⟩ from by decide] at hq
          injection hq with h'
          subst h'
          decide
        · rcases List.mem_cons.mp hrg' with rfl | hnil
          · rw [show demoRegionAPI.readRegion "rg-2" = some ⟨"rg-2", "beta"⟩ from by decide] at hq
            injection hq with h'
            subst h'
            decide
          · simp at hnil)
  · exact (C4_resolver_unknown_error demoRegionAPI demoTemplateAPI
      "gamma" "tmpl" "pool-1").2 rfl
      (by
        intro l hl tn htn t ht
        rw [show demoTemplateAPI.readTemplate tn = none from rfl] at ht
        exact absurd ht (by simp))

/-! ### Lemmas about the converters -/

theorem wrapInt64_eq_self (x : Int) (h1 : -9223372036854775808 ≤ x)
    (h2 : x < 9223372036854775808) : wrapInt64 x = x := by
  unfold wrapInt64
  omega

/-! ### Claims C6 and C7 -/

/-- C6 counterexample: the claim quantifies over every API-side object; for
a volume whose byte Size is 1 (not a multiple of 2^30) the round trip
`toAPI (fromAPI x)` truncates the Size to 0, so it does not reproduce `x`
even though Size is not a field subject to server-assigned defaults. -/
theorem C6_volume_roundtrip_counterexample :
    volumeResourceToModel (volumeModelToResource ⟨"vol", some "d", "os", 1⟩) ≠
      (⟨"vol", some "d", "os", 1⟩ : Volume) ∧
    (volumeResourceToModel (volumeModelToResource ⟨"vol", some "d", "os", 1⟩)).size = 0 := by
  decide

/-- C6 amended: the volume round trip `toAPI (fromAPI x)` reproduces `x`
exactly for every API-side volume whose Description is present and whose
byte Size is a multiple of 2^30 within the int64 range (as holds for every
volume the provider itself creates, Sizes being sent as whole gigabytes);
for other Sizes the round trip truncates to a multiple of 2^30 (see the
counterexample), and an absent Description comes back as the empty
string. -/
theorem C6_volume_roundtrip_amended (x : Volume) (d0 : String)
    (hdesc : x.description = some d0)
    (hdvd : HelperGbToBytes ∣ x.size)
    (hlo : -9223372036854775808 ≤ x.size)
    (hhi : x.size < 9223372036854775808) :
    volumeResourceToModel (volumeModelToResource x) = x := by
  obtain ⟨k, hk⟩ := hdvd
  rcases x with ⟨nm, ds, ty, sz⟩
  simp only at hdesc hk hlo hhi
  subst hdesc
  have hcancel : Int.tdiv sz HelperGbToBytes * HelperGbToBytes = sz := by
    rw [hk, Int.mul_tdiv_cancel_left k (by norm_num [HelperGbToBytes]), mul_comm]
  show Volume.mk _ _ _ _ = _
  simp only [volumeModelToResource, volumeResourceToModel,
    GoTFValue.valueString, GoTFValue.valueStringPointer, GoTFValue.valueInt64]
  rw [hcancel, wrapInt64_eq_self sz hlo hhi]

/-- Witness for C6 (amended) at a 4 GiB volume with a present
description. -/
theorem C6_volume_roundtrip_witness :
    volumeResourceToModel (volumeModelToResource ⟨"vol", some "d", "os", 4294967296⟩) =
      (⟨"vol", some "d", "os", 4294967296⟩ : Volume) :=
  C6_volume_roundtrip_amended ⟨"vol", some "d", "os", 4294967296⟩ "d" rfl
    (by decide) (by decide) (by decide)

/-- C7: for every non-negative g whose byte count g·2^30 fits in an int64,
converting a model holding g gigabytes to the API volume (multiplying by
HelperGbToBytes = 2^30 = 1073741824) and mapping the volume back (dividing
by the same constant) yields g again. -/
theorem C7_gb_bytes_roundtrip (g : Int) (d : VolumeResourceModel)
    (hsz : d.size = GoTFValue.value g) (h0 : 0 ≤ g)
    (hrep : g * HelperGbToBytes < 9223372036854775808) :
    (volumeModelToResource (volumeResourceToModel d)).size = GoTFValue.value g := by
  have hnonneg : (0 : Int) ≤ g * HelperGbToBytes :=
    mul_nonneg h0 (by norm_num [HelperGbToBytes])
  simp only [volumeResourceToModel, volumeModelToResource, hsz, GoTFValue.valueInt64]
  rw [wrapInt64_eq_self _ (by omega) hrep,
    Int.mul_tdiv_cancel g (by norm_num [HelperGbToBytes])]

/-- Witness for C7 at g = 4 (the spec's example). -/
theorem C7_gb_bytes_roundtrip_witness :
    (volumeModelToResource (volumeResourceToModel
        ⟨GoTFValue.null, GoTFValue.null, GoTFValue.null, GoTFValue.value 4⟩)).size =
      GoTFValue.value 4 :=
  C7_gb_bytes_roundtrip 4
    ⟨GoTFValue.null, GoTFValue.null, GoTFValue.null, GoTFValue.value 4⟩
    rfl (by decide) (by decide)

/-! ### Claim C8 -/

/-- C8: mapping an API object back to the wire model substitutes the
read-write default "RW" for an absent access type (Kylo converter) and
"accept" for an absent firewall egress policy (Kawaii converter), while
present fields are copied through unchanged. -/
theorem C8_absent_field_defaults (r : Kylo) (ep : Option String) :
    (r.access = none →
       (kyloModelToResource r).access = GoTFValue.value "RW") ∧
    (∀ a, r.access = some a →
       (kyloModelToResource r).access = GoTFValue.value a) ∧
    (ep = none →
       kawaiiModelToResourceEgressPolicy ep = GoTFValue.value "accept") ∧
    (∀ p, ep = some p →
       kawaiiModelToResourceEgressPolicy ep = GoTFValue.value p) := by
  refine ⟨?_, ?_, ?_, ?_⟩
  · intro h
    simp [kyloModelToResource, h, KyloDefaultValueAccessType]
  · intro a h
    simp [kyloModelToResource, h]
  · intro h
    simp [kawaiiModelToResourceEgressPolicy, h, KawaiiDefaultValueEgressPolicy]
  · intro p h
    simp [kawaiiModelToResourceEgressPolicy, h]

/-- Witness for C8: an absent access type comes back as "RW", a present
egress policy "drop" is copied through. -/
theorem C8_absent_field_defaults_witness :
    (kyloModelToResource ⟨"k", none, none, [], none⟩).access = GoTFValue.value "RW" ∧
    kawaiiModelToResourceEgressPolicy (some "drop") = GoTFValue.value "drop" :=
  ⟨(C8_absent_field_defaults ⟨"k", none, none, [], none⟩ (some "drop")).1 rfl,
   (C8_absent_field_defaults ⟨"k", none, none, [], none⟩ (some "drop")).2.2.2 "drop" rfl⟩

/-! ### Claim C9 -/

/-- C9: the network-address validator accepts "10.0.0.1" and "10.0.0.0/8"
and rejects "not-an-ip", as claimed; but its acceptance condition is NOT
"valid IPv4 address or valid CIDR block": `net.ParseIP` also parses IPv6
addresses, so "::1" is accepted without any diagnostic although it is
neither an IPv4 address nor a CIDR block (the validator's own description
and error text promise "a valid IPv4 address or CIDR"). -/
theorem C9_networkAddress_vectors_code_behaviour :
    stringNetworkAddressValidator.ValidateString (GoTFValue.value "10.0.0.1") = [] ∧
    stringNetworkAddressValidator.ValidateString (GoTFValue.value "10.0.0.0/8") = [] ∧
    stringNetworkAddressValidator.ValidateString (GoTFValue.value "not-an-ip") ≠ [] ∧
    stringNetworkAddressValidator.ValidateString (GoTFValue.value "::1") = [] ∧
    networkAddressClaimAccepts "::1".data = false := by
  decide

/-! ### Claim C10 -/

/-- C10: every field validator — network protocol, firewall policy, user
role, port ranges, duration, network address, email, IPsec encryption,
IPsec integrity and Diffie-Hellman — returns without adding any diagnostic
when the configuration value is null or unknown (for any outcome of the
external email verifier). -/
theorem C10_validators_pass_null_and_unknown (verify : String → Except Unit Bool) :
    stringNetworkProtocolValidator.ValidateString GoTFValue.null = [] ∧
    stringNetworkProtocolValidator.ValidateString GoTFValue.unknown = [] ∧
    stringFirewallPolicyValidator.ValidateString GoTFValue.null = [] ∧
    stringFirewallPolicyValidator.ValidateString GoTFValue.unknown = [] ∧
    stringUserRoleValidator.ValidateString GoTFValue.null = [] ∧
    stringUserRoleValidator.ValidateString GoTFValue.unknown = [] ∧
    stringNetworkPortRangesValidator.ValidateString GoTFValue.null = [] ∧
    stringNetworkPortRangesValidator.ValidateString GoTFValue.unknown = [] ∧
    stringDurationValidator.ValidateString GoTFValue.null = [] ∧
    stringDurationValidator.ValidateString GoTFValue.unknown = [] ∧
    stringNetworkAddressValidator.ValidateString GoTFValue.null = [] ∧
    stringNetworkAddressValidator.ValidateString GoTFValue.unknown = [] ∧
    stringUserEmailValidator.ValidateString verify GoTFValue.null = [] ∧
    stringUserEmailValidator.ValidateString verify GoTFValue.unknown = [] ∧
    encryptionAlgorithmTypeValidator.ValidateString GoTFValue.null = [] ∧
    encryptionAlgorithmTypeValidator.ValidateString GoTFValue.unknown = [] ∧
    integrityAlgorithmTypeValidator.ValidateString GoTFValue.null = [] ∧
    integrityAlgorithmTypeValidator.ValidateString GoTFValue.unknown = [] ∧
    diffieHellmanAlgorithmTypeValidator.ValidateInt64 GoTFValue.null = [] ∧
    diffieHellmanAlgorithmTypeValidator.ValidateInt64 GoTFValue.unknown = [] :=
  ⟨rfl, rfl, rfl, rfl, rfl, rfl, rfl, rfl, rfl, rfl,
   rfl, rfl, rfl, rfl, rfl, rfl, rfl, rfl, rfl, rfl⟩
